import Mathlib

/-!
Verification of `check_tesla_inventory.py`.

The script is embedded shallowly: listing records become a structure of
optional string fields, the persisted seen-set becomes a `Finset String`,
the two provider strategies become environment-supplied results (the HTTP
and browser layers are external), and `main`'s control flow from the point
where the seen-set has been loaded becomes a pure function producing an
observable `Trace` (emails recorded, value saved, whether an uncaught
exception escaped).
-/

/-- One listing record as built by the script: a Python dict with optional
string-valued fields. API records carry id/vin/trim/price/city/state;
scraped records carry id/text. A missing or `None` dict entry is `none`. -/
structure Listing where
  id : Option String
  vin : Option String
  trim : Option String
  price : Option String
  city : Option String
  state : Option String
  text : Option String
deriving DecidableEq

/-- Raw vehicle dict taken from the API response (`data.get("results")`),
before the parse loop of `query_tesla_inventory_api` (lines 84-93). -/
structure ApiVehicle where
  id : Option String
  vin : Option String
  trim : Option String
  price : Option String
  city : Option String
  state : Option String
deriving DecidableEq

/-- Python `str(x)` on an optional string: `str(None) = "None"`, and `str`
is the identity on strings. Models `str(l.get("id"))` at line 141. -/
def pyStr : Option String → String
  | none => "None"
  | some s => s

/-- Python `a or b` on optional strings: `None` and the empty string are
falsy, so they select `b`; any other string is returned as is. -/
def pyOr : Option String → Option String → Option String
  | none, b => b
  | some s, b => if s.isEmpty then b else some s

/-- Python `a or b` where `b` is already a plain string (a `dict.get` with
a default, as in `first.get('price') or 'N/A'`). -/
def pyOrStr (a : Option String) (b : String) : String :=
  match a with
  | none => b
  | some s => if s.isEmpty then b else s

/-- Python truthiness of an optional string (environment variables may be
unset, giving `None`, or set to the empty string, which is falsy). -/
def pyTruthy : Option String → Bool
  | none => false
  | some s => !s.isEmpty

/-- The body of the parse loop of `query_tesla_inventory_api` (lines
84-93): `vid = v.get("id") or v.get("vin")`, then a record with that id
and the descriptive fields copied over; no `text` key. -/
def parseApiVehicle (v : ApiVehicle) : Listing :=
  { id := pyOr v.id v.vin
    vin := v.vin
    trim := v.trim
    price := v.price
    city := v.city
    state := v.state
    text := none }

/-- `query_tesla_inventory_api` (lines 68-98): the HTTP layer is external,
so its outcome is an input. `raw = none` is the `except` branch, where the
function returns `None` to signal fallback; `raw = some vs` is a 200
response whose `results` list is `vs`, mapped through the parse loop. -/
def query_tesla_inventory_api (raw : Option (List ApiVehicle)) : Option (List Listing) :=
  raw.map (List.map parseApiVehicle)

/-- Python-level errors that the embedded fragments can raise. -/
inductive PyError
  | attributeError
deriving DecidableEq

/-- State of `last_seen.json` before a run: absent, present holding a JSON
array of strings, or present with contents that are not valid JSON. -/
inductive FileContent
  | absent
  | jsonList (ids : List String)
  | corrupt
deriving DecidableEq

/-- `load_last_seen` (lines 36-39). When the file does not exist it
returns the empty set. When the file exists the code runs
`json.load(LAST_SEEN_FILE)` where `LAST_SEEN_FILE` is a `pathlib.Path`;
`json.load` immediately calls `.read()` on its argument and `Path` has no
`read` method, so this raises `AttributeError` before the contents — valid
or corrupt — are even looked at. There is no `try`/`except` in the
function, so the exception propagates. -/
def load_last_seen : FileContent → Except PyError (Finset String)
  | FileContent.absent => Except.ok ∅
  | _ => Except.error PyError.attributeError

/-- `save_last_seen` (lines 42-44): `json.dump(list(ids), f)` overwrites
the state file with a JSON array holding the set's elements in some
enumeration order (Python's `list(set)` order is arbitrary; the sorted
enumeration is used here as one concrete, order-free choice). -/
def save_last_seen (ids : Finset String) : FileContent :=
  FileContent.jsonList (ids.sort (fun a b => a ≤ b))

/-- Email configuration drawn from the environment: `EMAIL_ADDRESS`,
`EMAIL_PASSWORD`, `TO_EMAIL` (lines 27-29). -/
structure EmailCfg where
  address : Option String
  password : Option String
  toEmail : Option String
deriving DecidableEq

/-- Observable outcome of one `send_email` call: credentials missing (the
body is printed as a warning), message sent, or SMTP failure caught by the
`except` at line 61. In every case the call returns normally. -/
inductive NotifyOutcome
  | warnedMissingCreds
  | sent
  | failedCaught
deriving DecidableEq

/-- `send_email` (lines 47-62) with the SMTP transport outcome supplied as
an input (`smtpOk = false` means the connection/login/send raised). The
guard at line 48 uses Python truthiness of the three credentials. -/
def send_email (cfg : EmailCfg) (smtpOk : Bool) : NotifyOutcome :=
  if pyTruthy cfg.address && pyTruthy cfg.password && pyTruthy cfg.toEmail then
    if smtpOk then NotifyOutcome.sent else NotifyOutcome.failedCaught
  else
    NotifyOutcome.warnedMissingCreds

/-- Python `"\n".join(lines)`. -/
def joinWithNewline : List String → String
  | [] => ""
  | [s] => s
  | s :: rest => s ++ "\n" ++ joinWithNewline rest

/-- The notification body built at lines 148-155, a function of the
configured ZIP and of `first = listings[0]` only. -/
def buildBody (zip : String) (first : Listing) : String :=
  joinWithNewline
    ["🚗 Tesla Model Y available near " ++ zip ++ "!",
     "Trim: " ++ pyOrStr first.trim (first.text.getD "N/A"),
     "Price: " ++ pyOrStr first.price "N/A",
     "VIN/ID: " ++ pyStr (pyOr first.vin first.id),
     "Location: " ++ first.city.getD "N/A" ++ ", " ++ first.state.getD "N/A",
     "Link: https://www.tesla.com/inventory/new/m?zip=" ++ zip ++ "&model=MY"]

/-- One recorded invocation of the notifier. -/
structure EmailEvent where
  subject : String
  body : String
  outcome : NotifyOutcome
deriving DecidableEq

/-- Observable effects of one run: the notifier invocations in order, the
value written to the state file (`none` when `save_last_seen` was never
reached), and whether an uncaught exception escaped `main`. -/
structure Trace where
  emails : List EmailEvent
  saved : Option (Finset String)
  raised : Bool
deriving DecidableEq

/-- The delta loop of `main` (lines 139-144), written as a pure function:
`new_listings` accumulates `str(l.get("id"))` for each listing whose key
is not yet in the seen-set, and each such key is added to the set before
the next iteration. Returns (new_listings, final seen-set). -/
def computeDelta : List Listing → Finset String → List String × Finset String
  | [], seen => ([], seen)
  | l :: rest, seen =>
    if pyStr l.id ∈ seen then
      computeDelta rest seen
    else
      let p := computeDelta rest (insert (pyStr l.id) seen)
      (pyStr l.id :: p.1, p.2)

/-- The same loop with the seen-set held in a heap cell, modelling Python
object identity: `heap` is the store, `r` the reference `main` and the
loader share. `last_seen.add(lid)` becomes an update of the cell at `r`;
no fresh cell is ever allocated, matching the code, which makes no copy. -/
def deltaLoopHeap : List Listing → List (Finset String) → Nat → List String × List (Finset String)
  | [], heap, _ => ([], heap)
  | l :: rest, heap, r =>
    let seen := heap.getD r ∅
    if pyStr l.id ∈ seen then
      deltaLoopHeap rest heap r
    else
      let p := deltaLoopHeap rest (heap.set r (insert (pyStr l.id) seen)) r
      (pyStr l.id :: p.1, p.2)

/-- Spec characterization of the delta (§3 NewListingsDelta, §4.1): the
ordered subsequence of the snapshot whose id is absent from the loaded
seen-set, a repeated id within one snapshot contributing only its first
occurrence. Kept as records, the way the spec words it, to be compared
with the list of key strings the code accumulates. -/
def specDeltaSubsequence : List Listing → Finset String → List Listing
  | [], _ => []
  | l :: rest, seen =>
    if pyStr l.id ∈ seen then
      specDeltaSubsequence rest seen
    else
      l :: specDeltaSubsequence rest (insert (pyStr l.id) seen)

/-- The provider composition of `main` (lines 132-134): the API result is
used unless it is `None` (internal failure) or the empty list, in which
case the Playwright strategy runs; that strategy has no exception handler,
so its failure (`Except.error`) propagates out of `main`. -/
def fetchListings (api : Option (List Listing)) (pw : Except Unit (List Listing)) :
    Except Unit (List Listing) :=
  match api with
  | none => pw
  | some l => if l.isEmpty then pw else Except.ok l

/-- `main` from line 135 on, given the already-resolved fetch outcome:
empty listings print and return with nothing saved (line 135-137); else
the delta loop runs, `send_email` is called exactly when `new_listings`
is non-empty with a body built from `listings[0]`, and `save_last_seen`
then runs unconditionally (line 161). -/
def runWithListings (seen : Finset String) (fetched : Except Unit (List Listing))
    (cfg : EmailCfg) (smtpOk : Bool) (zip : String) : Trace :=
  match fetched with
  | Except.error _ => { emails := [], saved := none, raised := true }
  | Except.ok [] => { emails := [], saved := none, raised := false }
  | Except.ok (first :: rest) =>
    let p := computeDelta (first :: rest) seen
    { emails :=
        if p.1.isEmpty then []
        else [{ subject := "Tesla Model Y Available"
                body := buildBody zip first
                outcome := send_email cfg smtpOk }]
      saved := some p.2
      raised := false }

/-- `main` (lines 130-161) from the point where the seen-set has been
loaded: compose the two provider strategies, then run the rest. -/
def runFromLoaded (seen : Finset String) (api : Option (List Listing))
    (pw : Except Unit (List Listing)) (cfg : EmailCfg) (smtpOk : Bool) (zip : String) : Trace :=
  runWithListings seen (fetchListings api pw) cfg smtpOk zip

/-- Whole of `main` (lines 130-161), starting from the state file: if
`load_last_seen` raises, the exception propagates with nothing sent or
saved; otherwise the run proceeds on the loaded set. -/
def mainRun (fs : FileContent) (api : Option (List Listing))
    (pw : Except Unit (List Listing)) (cfg : EmailCfg) (smtpOk : Bool) (zip : String) : Trace :=
  match load_last_seen fs with
  | Except.error _ => { emails := [], saved := none, raised := true }
  | Except.ok seen => runFromLoaded seen api pw cfg smtpOk zip

/-- Boolean test: is `pat` a prefix of `s` (character lists). -/
def charsPrefix : List Char → List Char → Bool
  | [], _ => true
  | _ :: _, [] => false
  | c :: cs, d :: ds => c == d && charsPrefix cs ds

/-- Boolean test: does `pat` occur contiguously inside `s`. -/
def charsSubstr : List Char → List Char → Bool
  | pat, [] => charsPrefix pat []
  | pat, s@(_ :: rest) => charsPrefix pat s || charsSubstr pat rest

/-- Does the string `pat` occur as a substring of `s`. -/
def occursIn (pat s : String) : Bool :=
  charsSubstr pat.data s.data

/-- Sample API-shaped listing with id/vin "V1". -/
def listingV1 : Listing :=
  { id := some "V1", vin := some "V1", trim := some "LR", price := some "50000",
    city := some "San Jose", state := some "CA", text := none }

/-- Sample API-shaped listing with id/vin "V2". -/
def listingV2 : Listing :=
  { id := some "V2", vin := some "V2", trim := some "LR", price := some "52000",
    city := some "Fremont", state := some "CA", text := none }

/-- Sample listing whose id entry is missing/None. -/
def listingNoId : Listing :=
  { id := none, vin := none, trim := some "LR", price := none,
    city := none, state := none, text := none }

/-- Email configuration with all credentials unset. -/
def cfgMissing : EmailCfg :=
  { address := none, password := none, toEmail := none }

/-! ### Helper lemmas about the delta loop -/

theorem computeDelta_seen_subset (L : List Listing) (seen : Finset String) :
    seen ⊆ (computeDelta L seen).2 := by
  induction L generalizing seen with
  | nil => exact Finset.Subset.refl seen
  | cons l rest ih =>
    by_cases h : pyStr l.id ∈ seen
    · simpa [computeDelta, h] using ih seen
    · simp only [computeDelta, h, if_neg, ite_false]
      exact Finset.Subset.trans (Finset.subset_insert _ seen) (ih (insert (pyStr l.id) seen))

theorem computeDelta_id_mem_snd (L : List Listing) (seen : Finset String)
    (l : Listing) (hl : l ∈ L) : pyStr l.id ∈ (computeDelta L seen).2 := by
  induction L generalizing seen with
  | nil => cases hl
  | cons hd rest ih =>
    by_cases h : pyStr hd.id ∈ seen
    · rcases List.mem_cons.mp hl with heq | hmem
      · simpa [computeDelta, h] using
          computeDelta_seen_subset rest seen (by rw [heq]; exact h)
      · simpa [computeDelta, h] using ih seen hmem
    · rcases List.mem_cons.mp hl with heq | hmem
      · simpa [computeDelta, h] using
          computeDelta_seen_subset rest (insert (pyStr hd.id) seen)
            (by rw [heq]; exact Finset.mem_insert_self _ seen)
      · simpa [computeDelta, h] using ih (insert (pyStr hd.id) seen) hmem

theorem computeDelta_fst_nil (L : List Listing) (seen : Finset String)
    (h : ∀ l ∈ L, pyStr l.id ∈ seen) : (computeDelta L seen).1 = [] := by
  induction L with
  | nil => rfl
  | cons l rest ih =>
    have hl : pyStr l.id ∈ seen := h l (List.mem_cons_self l rest)
    simp only [computeDelta, hl, ite_true]
    exact ih (fun x hx => h x (List.mem_cons_of_mem l hx))

theorem computeDelta_not_mem_fst (L : List Listing) (seen : Finset String)
    (x : String) (hx : x ∈ seen) : x ∉ (computeDelta L seen).1 := by
  induction L generalizing seen with
  | nil => simp [computeDelta]
  | cons l rest ih =>
    by_cases h : pyStr l.id ∈ seen
    · simpa [computeDelta, h] using ih seen hx
    · simp only [computeDelta, h, ite_false, List.mem_cons, not_or]
      constructor
      · rintro rfl; exact h hx
      · exact ih (insert (pyStr l.id) seen) (Finset.mem_insert_of_mem hx)

theorem computeDelta_count_le_one (L : List Listing) (seen : Finset String)
    (x : String) : ((computeDelta L seen).1).count x ≤ 1 := by
  induction L generalizing seen with
  | nil => simp [computeDelta]
  | cons l rest ih =>
    by_cases h : pyStr l.id ∈ seen
    · simpa [computeDelta, h] using ih seen
    · simp only [computeDelta, h, ite_false, List.count_cons]
      by_cases hx : x = pyStr l.id
      · subst hx
        have hzero : ((computeDelta rest (insert (pyStr l.id) seen)).1).count (pyStr l.id) = 0 :=
          List.count_eq_zero.mpr
            (computeDelta_not_mem_fst rest (insert (pyStr l.id) seen) (pyStr l.id)
              (Finset.mem_insert_self (pyStr l.id) seen))
        simp [hzero]
      · simpa [Ne.symm hx] using ih (insert (pyStr l.id) seen)

theorem computeDelta_fst_eq_spec_map (L : List Listing) (seen : Finset String) :
    (computeDelta L seen).1 = (specDeltaSubsequence L seen).map (fun l => pyStr l.id) := by
  induction L generalizing seen with
  | nil => rfl
  | cons l rest ih =>
    by_cases h : pyStr l.id ∈ seen
    · simp [computeDelta, specDeltaSubsequence, h, ih seen]
    · simp [computeDelta, specDeltaSubsequence, h, ih (insert (pyStr l.id) seen)]

theorem specDeltaSubsequence_sublist (L : List Listing) (seen : Finset String) :
    (specDeltaSubsequence L seen).Sublist L := by
  induction L generalizing seen with
  | nil => simp [specDeltaSubsequence]
  | cons l rest ih =>
    by_cases h : pyStr l.id ∈ seen
    · simp only [specDeltaSubsequence, h, ite_true]
      exact List.Sublist.cons l (ih seen)
    · simp only [specDeltaSubsequence, h, ite_false]
      exact List.Sublist.cons₂ l (ih (insert (pyStr l.id) seen))

theorem computeDelta_fst_nodup (L : List Listing) (seen : Finset String) :
    ((computeDelta L seen).1).Nodup := by
  induction L generalizing seen with
  | nil => simp [computeDelta]
  | cons l rest ih =>
    by_cases h : pyStr l.id ∈ seen
    · simpa [computeDelta, h] using ih seen
    · simp only [computeDelta, h, ite_false, List.nodup_cons]
      exact ⟨computeDelta_not_mem_fst rest (insert (pyStr l.id) seen) (pyStr l.id)
               (Finset.mem_insert_self _ seen),
             ih (insert (pyStr l.id) seen)⟩

theorem computeDelta_mem_fst_iff (L : List Listing) (seen : Finset String) (x : String) :
    x ∈ (computeDelta L seen).1 ↔ (x ∈ L.map (fun l => pyStr l.id) ∧ x ∉ seen) := by
  induction L generalizing seen with
  | nil => simp [computeDelta]
  | cons l rest ih =>
    by_cases h : pyStr l.id ∈ seen
    · rw [computeDelta]
      simp only [h, ite_true, List.map_cons, List.mem_cons]
      rw [ih seen]
      constructor
      · rintro ⟨hmem, hns⟩; exact ⟨Or.inr hmem, hns⟩
      · rintro ⟨rfl | hmem, hns⟩
        · exact absurd h hns
        · exact ⟨hmem, hns⟩
    · rw [computeDelta]
      simp only [h, ite_false, List.map_cons, List.mem_cons]
      rw [ih (insert (pyStr l.id) seen)]
      constructor
      · rintro (rfl | ⟨hmem, hns⟩)
        · exact ⟨Or.inl rfl, h⟩
        · exact ⟨Or.inr hmem, fun hs => hns (Finset.mem_insert_of_mem hs)⟩
      · rintro ⟨rfl | hmem, hns⟩
        · exact Or.inl rfl
        · by_cases hx : x = pyStr l.id
          · exact Or.inl hx
          · exact Or.inr ⟨hmem, by simp [Finset.mem_insert, hx, hns]⟩

/-! ### Claim theorems -/

/-- C1: the round-trip claim fails on the code. Saving any set makes the
state file exist, and `load_last_seen` then raises `AttributeError`
(`json.load` is handed the `pathlib.Path` itself, which has no `read`
method), instead of returning the saved set. Evaluated here at the
concrete set containing "V1". -/
theorem c1_roundtrip_raises :
    load_last_seen (save_last_seen (insert "V1" (∅ : Finset String))) =
      Except.error PyError.attributeError := rfl

/-- C2: idempotence of the delta under re-run. For every snapshot `L` and
seen-set `seen`, recomputing the delta of the same snapshot against the
updated seen-set produced by the first computation yields an empty delta,
so no listing id is notified twice for an unchanged snapshot. -/
theorem c2_delta_idempotent (L : List Listing) (seen : Finset String) :
    (computeDelta L ((computeDelta L seen).2)).1 = [] :=
  computeDelta_fst_nil L ((computeDelta L seen).2)
    (fun l hl => computeDelta_id_mem_snd L seen l hl)

/-- C4 counterexample: a state file with corrupt contents makes
`load_last_seen` raise (there is no exception handling, and `json.load`
is applied to the `Path` itself), not return the empty set. -/
theorem c4_corrupt_state_raises :
    load_last_seen FileContent.corrupt = Except.error PyError.attributeError ∧
    load_last_seen FileContent.corrupt ≠ Except.ok (∅ : Finset String) := by
  constructor
  · rfl
  · intro h
    exact Except.noConfusion h

/-- C4 amended: `load_last_seen` returns a set only in the no-prior-file
case, where it is the empty set; whenever the state file exists — readable
or corrupt — the function raises instead of treating the state as empty. -/
theorem c4_load_empty_only_when_absent :
    load_last_seen FileContent.absent = Except.ok (∅ : Finset String) ∧
    ∀ fs : FileContent, fs ≠ FileContent.absent →
      load_last_seen fs = Except.error PyError.attributeError := by
  constructor
  · rfl
  · intro fs hfs
    cases fs with
    | absent => exact absurd rfl hfs
    | jsonList ids => rfl
    | corrupt => rfl

/-- C4 witness: the amended statement applied to a concrete existing
state file. -/
theorem c4_load_empty_only_when_absent_witness :
    load_last_seen (FileContent.jsonList ["a"]) = Except.error PyError.attributeError :=
  c4_load_empty_only_when_absent.2 (FileContent.jsonList ["a"]) (by decide)

/-- C5 counterexample: the seen-set object the caller holds is not left
unchanged. Running the delta loop on a heap whose one cell (reference 0)
holds the loaded empty set leaves, at that same reference, the set
{"V1"} — the cell was updated in place, so the heap differs from the
original heap. -/
theorem c5_caller_set_mutated :
    (deltaLoopHeap [listingV1] [(∅ : Finset String)] 0).2 ≠ [(∅ : Finset String)] := by
  decide

/-- C5 amended: the loop makes no copy — `last_seen.add` mutates the one
set object in place — and that mutated object is exactly the value the
pure delta computation would produce as the updated seen-set, which is
what the run later persists. -/
theorem c5_inplace_matches_pure (L : List Listing) (seen : Finset String) :
    deltaLoopHeap L [seen] 0 = ((computeDelta L seen).1, [(computeDelta L seen).2]) := by
  induction L generalizing seen with
  | nil => rfl
  | cons l rest ih =>
    by_cases h : pyStr l.id ∈ seen
    · simpa [deltaLoopHeap, computeDelta, List.getD, h] using ih seen
    · simp [deltaLoopHeap, computeDelta, List.getD, h, ih (insert (pyStr l.id) seen)]

/-- C3 counterexample: a run over the snapshot [V1, V2] against the empty
seen-set has both ids in the delta, invokes the notifier exactly once,
but the body of that one notification nowhere mentions "V2" — it is built
from the first snapshot listing alone, not from every listing in the
delta. -/
theorem c3_body_omits_second_listing :
    (computeDelta [listingV1, listingV2] ∅).1 = ["V1", "V2"] ∧
    (runFromLoaded ∅ (some [listingV1, listingV2]) (Except.ok []) cfgMissing true
        "95054").emails.length = 1 ∧
    ∀ e ∈ (runFromLoaded ∅ (some [listingV1, listingV2]) (Except.ok []) cfgMissing true
        "95054").emails, occursIn "V2" e.body = false := by
  decide

/-- C3 amended: in every run that reaches delta computation, an empty
delta means the notifier is never invoked, and a non-empty delta means it
is invoked exactly once — but with a body built solely from the first
listing of the snapshot, not an aggregate over the delta. -/
theorem c3_notify_gating_first_only (seen : Finset String) (api : Option (List Listing))
    (pw : Except Unit (List Listing)) (cfg : EmailCfg) (smtpOk : Bool) (zip : String)
    (first : Listing) (rest : List Listing)
    (h : fetchListings api pw = Except.ok (first :: rest)) :
    ((computeDelta (first :: rest) seen).1 = [] →
      (runFromLoaded seen api pw cfg smtpOk zip).emails = []) ∧
    ((computeDelta (first :: rest) seen).1 ≠ [] →
      (runFromLoaded seen api pw cfg smtpOk zip).emails =
        [{ subject := "Tesla Model Y Available"
           body := buildBody zip first
           outcome := send_email cfg smtpOk }]) := by
  unfold runFromLoaded
  rw [h]
  constructor
  · intro he
    simp [runWithListings, he]
  · intro hne
    simp [runWithListings, List.isEmpty_iff, hne]

/-- C3 witness: the amended statement applied to a run whose snapshot is
the single listing V1 and whose seen-set is empty. -/
theorem c3_notify_gating_first_only_witness :
    (runFromLoaded ∅ (some [listingV1]) (Except.ok []) cfgMissing true "95054").emails =
      [{ subject := "Tesla Model Y Available"
         body := buildBody "95054" listingV1
         outcome := send_email cfgMissing true }] :=
  (c3_notify_gating_first_only ∅ (some [listingV1]) (Except.ok []) cfgMissing true
      "95054" listingV1 [] rfl).2 (by decide)

/-- C6: fault isolation of the notifier. In every run whose fetch
resolved to a non-empty snapshot, the state save receives exactly the
updated seen-set of the delta computation, for every email configuration
and every transport outcome, and no exception escapes the run — the
notifier's internal failures are caught. -/
theorem c6_save_despite_notifier (seen : Finset String) (api : Option (List Listing))
    (pw : Except Unit (List Listing)) (cfg : EmailCfg) (smtpOk : Bool) (zip : String)
    (L : List Listing) (h : fetchListings api pw = Except.ok L) (hne : L ≠ []) :
    (runFromLoaded seen api pw cfg smtpOk zip).saved = some (computeDelta L seen).2 ∧
    (runFromLoaded seen api pw cfg smtpOk zip).raised = false := by
  cases L with
  | nil => exact absurd rfl hne
  | cons first rest =>
    unfold runFromLoaded
    rw [h]
    constructor
    · simp [runWithListings]
    · simp [runWithListings]

/-- C6 witness: a configured notifier whose transport attempt fails
(`smtpOk = false`) still leaves the run saving the updated seen-set. -/
theorem c6_save_despite_notifier_witness :
    (runFromLoaded ∅ (some [listingV1]) (Except.ok [])
        { address := some "a@example.com", password := some "pw", toEmail := some "t@example.com" }
        false "95054").saved = some (computeDelta [listingV1] ∅).2 ∧
    (runFromLoaded ∅ (some [listingV1]) (Except.ok [])
        { address := some "a@example.com", password := some "pw", toEmail := some "t@example.com" }
        false "95054").raised = false :=
  c6_save_despite_notifier ∅ (some [listingV1]) (Except.ok [])
    { address := some "a@example.com", password := some "pw", toEmail := some "t@example.com" }
    false "95054" [listingV1] rfl (by decide)

/-- C7 counterexample: the primary strategy succeeding with an explicitly
empty result does not make the composed provider use that result. With
the API returning the empty list, the scraping fallback runs: its data is
used (a notification fires for a listing the API never returned), and if
it raises, the whole run raises even though the primary succeeded. -/
theorem c7_empty_api_triggers_fallback :
    (runFromLoaded ∅ (some []) (Except.ok [listingV1]) cfgMissing true
        "95054").emails.length = 1 ∧
    (runFromLoaded ∅ (some []) (Except.error ()) cfgMissing true "95054").raised = true := by
  decide

/-- C7 amended: the fallback is invoked both when the primary fails
outright (returns None) and when it succeeds with zero results; a
non-empty primary result is used directly, and an empty or failed primary
hands the run's outcome entirely to the fallback. -/
theorem c7_fallback_on_none_or_empty (api : Option (List Listing))
    (pw : Except Unit (List Listing)) :
    (∀ l, api = some l → l ≠ [] → fetchListings api pw = Except.ok l) ∧
    ((api = none ∨ api = some []) → fetchListings api pw = pw) := by
  constructor
  · intro l hl hne
    subst hl
    simp [fetchListings, List.isEmpty_iff, hne]
  · rintro (rfl | rfl) <;> simp [fetchListings]

/-- C7 witness: the amended statement applied to an explicitly empty
primary result and a successful fallback. -/
theorem c7_fallback_on_none_or_empty_witness :
    fetchListings (some []) (Except.ok [listingV1]) = Except.ok [listingV1] :=
  (c7_fallback_on_none_or_empty (some []) (Except.ok [listingV1])).2 (Or.inr rfl)

/-- C8: order preservation of the delta. The list `new_listings` is the
image, under the dedup key `str(l.get("id"))`, of exactly the
`specDeltaSubsequence` of the snapshot — an order-preserving subsequence
of the snapshot records; its entries are pairwise distinct, so a repeated
id within one snapshot contributes only its first occurrence; and its
membership is exactly the snapshot keys absent from the seen-set. -/
theorem c8_delta_order_preserving (L : List Listing) (seen : Finset String) :
    (computeDelta L seen).1 = (specDeltaSubsequence L seen).map (fun l => pyStr l.id) ∧
    (specDeltaSubsequence L seen).Sublist L ∧
    ((computeDelta L seen).1).Nodup ∧
    ∀ x, x ∈ (computeDelta L seen).1 ↔
      (x ∈ L.map (fun l => pyStr l.id) ∧ x ∉ seen) :=
  ⟨computeDelta_fst_eq_spec_map L seen,
   specDeltaSubsequence_sublist L seen,
   computeDelta_fst_nodup L seen,
   fun x => computeDelta_mem_fst_iff L seen x⟩

/-- C9: atomicity under total provider failure. When the API strategy
fails (returns None) and the scraping strategy raises, the run ends with
the notifier never invoked, nothing written to the state file, and the
uncaught exception flag set — which distinguishes it from every run whose
fetch succeeded, since those never set the flag. -/
theorem c9_total_failure_no_effects :
    (∀ (seen : Finset String) (cfg : EmailCfg) (smtpOk : Bool) (zip : String),
      runFromLoaded seen none (Except.error ()) cfg smtpOk zip =
        { emails := [], saved := none, raised := true }) ∧
    (∀ (seen : Finset String) (api : Option (List Listing))
        (pw : Except Unit (List Listing)) (cfg : EmailCfg) (smtpOk : Bool) (zip : String)
        (L : List Listing), fetchListings api pw = Except.ok L →
      (runFromLoaded seen api pw cfg smtpOk zip).raised = false) := by
  constructor
  · intro seen cfg smtpOk zip
    rfl
  · intro seen api pw cfg smtpOk zip L h
    unfold runFromLoaded
    rw [h]
    cases L <;> simp [runWithListings]

/-- C9 witness: the distinguishability half applied to a concrete
successful fetch. -/
theorem c9_total_failure_no_effects_witness :
    (runFromLoaded ∅ (some [listingV1]) (Except.ok []) cfgMissing true "95054").raised =
      false :=
  c9_total_failure_no_effects.2 ∅ (some [listingV1]) (Except.ok []) cfgMissing true
    "95054" [listingV1] rfl

/-- C10: collision of missing identifiers. The dedup key of a record with
a missing/None id is the literal string "None" (and the API parse loop
yields such a record when both id and vin are missing); consequently the
delta of any run counts the key "None" at most once, and once "None" is
in the seen-set, no id-less listing ever enters the delta again. -/
theorem c10_missing_id_collides_none :
    pyStr none = "None" ∧
    (∀ t p c s : Option String,
      pyStr (parseApiVehicle { id := none, vin := none, trim := t, price := p,
                               city := c, state := s }).id = "None") ∧
    (∀ (L : List Listing) (seen : Finset String),
      ((computeDelta L seen).1).count "None" ≤ 1) ∧
    (∀ (L : List Listing) (seen : Finset String),
      "None" ∈ seen → "None" ∉ (computeDelta L seen).1) :=
  ⟨rfl,
   fun _ _ _ _ => rfl,
   fun L seen => computeDelta_count_le_one L seen "None",
   fun L seen hseen => computeDelta_not_mem_fst L seen "None" hseen⟩

/-- C10 witness: with "None" already persisted, a run over an id-less
listing suppresses it. -/
theorem c10_missing_id_collides_none_witness :
    "None" ∉ (computeDelta [listingNoId] (insert "None" (∅ : Finset String))).1 :=
  c10_missing_id_collides_none.2.2.2 [listingNoId] (insert "None" ∅)
    (Finset.mem_insert_self "None" ∅)
